import Mathlib

/-!
# Verification of the VuforiaClientGo client library

Shallow embedding of the Go client for the Vuforia Web Services API:
the request signer (`sign` / `prepare`), the error classifier
(`checkError`), the CRUD operations, and the polling helper
(`WaitUntilProcessed`), together with theorems settling the spec's
claims about them.

Machine integers are modelled as `Nat` reduced modulo `2^32` (resp.
`2^64` for bit lengths); byte strings are `List Nat` with every
element intended below 256.  The cryptographic primitives used by the
signer (`crypto/md5`, `crypto/sha1`, `crypto/hmac`,
`encoding/base64`) are implemented in full from their standard
definitions so that the signer embedding is executable.
-/

namespace Vuforia

/-! ## 32-bit word arithmetic -/

/-- Truncate to a 32-bit word, as Go's `uint32` arithmetic does. -/
def w32 (n : Nat) : Nat := n % 4294967296

/-- Bitwise complement on 32-bit words. -/
def not32 (x : Nat) : Nat := 4294967295 ^^^ x

/-- Rotate a 32-bit word left by `s` bits (for `x < 2^32`, `0 < s < 32`). -/
def rotl32 (x s : Nat) : Nat := w32 (x <<< s) ||| (x >>> (32 - s))

/-! ## MD5 (`crypto/md5`)

Implemented from RFC 1321: little-endian words, 64 rounds per
512-bit block. -/

/-- Read a little-endian 32-bit word from the first four bytes of a list. -/
def leWord (bs : List Nat) : Nat :=
  bs.getD 0 0 + 256 * bs.getD 1 0 + 65536 * bs.getD 2 0 + 16777216 * bs.getD 3 0

/-- Serialize a 32-bit word to four little-endian bytes. -/
def wordLE (w : Nat) : List Nat :=
  [w % 256, (w >>> 8) % 256, (w >>> 16) % 256, (w >>> 24) % 256]

/-- MD5 / SHA-1 padding: append `0x80`, zero bytes until the length is
56 mod 64, then the 64-bit bit length (little-endian for MD5). -/
def md5Pad (msg : List Nat) : List Nat :=
  let len := msg.length
  let zeros := (64 + 56 - ((len + 1) % 64)) % 64
  let bitLen := (len * 8) % 18446744073709551616
  msg ++ [128] ++ List.replicate zeros 0 ++
    ((List.range 8).map fun i => (bitLen >>> (8 * i)) % 256)

/-- The 64 MD5 additive constants `K[i] = floor(2^32 * abs(sin(i+1)))`. -/
def md5K : List Nat :=
  [0xd76aa478, 0xe8c7b756, 0x242070db, 0xc1bdceee,
   0xf57c0faf, 0x4787c62a, 0xa8304613, 0xfd469501,
   0x698098d8, 0x8b44f7af, 0xffff5bb1, 0x895cd7be,
   0x6b901122, 0xfd987193, 0xa679438e, 0x49b40821,
   0xf61e2562, 0xc040b340, 0x265e5a51, 0xe9b6c7aa,
   0xd62f105d, 0x02441453, 0xd8a1e681, 0xe7d3fbc8,
   0x21e1cde6, 0xc33707d6, 0xf4d50d87, 0x455a14ed,
   0xa9e3e905, 0xfcefa3f8, 0x676f02d9, 0x8d2a4c8a,
   0xfffa3942, 0x8771f681, 0x6d9d6122, 0xfde5380c,
   0xa4beea44, 0x4bdecfa9, 0xf6bb4b60, 0xbebfbc70,
   0x289b7ec6, 0xeaa127fa, 0xd4ef3085, 0x04881d05,
   0xd9d4d039, 0xe6db99e5, 0x1fa27cf8, 0xc4ac5665,
   0xf4292244, 0x432aff97, 0xab9423a7, 0xfc93a039,
   0x655b59c3, 0x8f0ccc92, 0xffeff47d, 0x85845dd1,
   0x6fa87e4f, 0xfe2ce6e0, 0xa3014314, 0x4e0811a1,
   0xf7537e82, 0xbd3af235, 0x2ad7d2bb, 0xeb86d391]

/-- The per-round left-rotation amounts of MD5. -/
def md5S : List Nat :=
  [7, 12, 17, 22, 7, 12, 17, 22, 7, 12, 17, 22, 7, 12, 17, 22,
   5, 9, 14, 20, 5, 9, 14, 20, 5, 9, 14, 20, 5, 9, 14, 20,
   4, 11, 16, 23, 4, 11, 16, 23, 4, 11, 16, 23, 4, 11, 16, 23,
   6, 10, 15, 21, 6, 10, 15, 21, 6, 10, 15, 21, 6, 10, 15, 21]

/-- One MD5 round, acting on the state `(a, b, c, d)`; `M` gives the
message words of the current block. -/
def md5Round (M : Nat → Nat) (st : Nat × Nat × Nat × Nat) (i : Nat) :
    Nat × Nat × Nat × Nat :=
  let (a, b, c, d) := st
  let (f, g) :=
    if i < 16 then ((b &&& c) ||| (not32 b &&& d), i)
    else if i < 32 then ((d &&& b) ||| (not32 d &&& c), (5 * i + 1) % 16)
    else if i < 48 then (b ^^^ c ^^^ d, (3 * i + 5) % 16)
    else (c ^^^ (b ||| not32 d), (7 * i) % 16)
  let t := w32 (f + a + md5K.getD i 0 + M g)
  (d, w32 (b + rotl32 t (md5S.getD i 0)), b, c)

/-- Compress one 64-byte block into the MD5 state. -/
def md5Block (block : List Nat) (h : Nat × Nat × Nat × Nat) :
    Nat × Nat × Nat × Nat :=
  let M := fun g => leWord (block.drop (4 * g))
  let (a, b, c, d) := (List.range 64).foldl (md5Round M) h
  (w32 (h.1 + a), w32 (h.2.1 + b), w32 (h.2.2.1 + c), w32 (h.2.2.2 + d))

/-- Fold the block compression over a padded message, 64 bytes at a
time; `fuel` bounds the recursion (the message length suffices). -/
def md5Blocks (fuel : Nat) (msg : List Nat) (h : Nat × Nat × Nat × Nat) :
    Nat × Nat × Nat × Nat :=
  match fuel, msg with
  | 0, _ => h
  | _, [] => h
  | fuel + 1, msg => md5Blocks fuel (msg.drop 64) (md5Block (msg.take 64) h)

/-- The MD5 digest of a byte list: 16 bytes. -/
def md5 (msg : List Nat) : List Nat :=
  let padded := md5Pad msg
  let (a, b, c, d) :=
    md5Blocks padded.length padded (0x67452301, 0xefcdab89, 0x98badcfe, 0x10325476)
  wordLE a ++ wordLE b ++ wordLE c ++ wordLE d

/-- Lowercase hexadecimal digit characters. -/
def hexDigit (n : Nat) : Char :=
  if n < 10 then Char.ofNat (48 + n) else Char.ofNat (87 + n % 16)

/-- A byte as two lowercase hex characters, as Go's `%x` renders it. -/
def byteHex (b : Nat) : String :=
  String.mk [hexDigit (b / 16 % 16), hexDigit (b % 16)]

/-- A byte list as a lowercase hex string (Go `fmt` verb `%x`). -/
def hexLower (bs : List Nat) : String :=
  bs.foldr (fun b acc => byteHex b ++ acc) ""

/-! ## SHA-1 (`crypto/sha1`)

Implemented from RFC 3174: big-endian words, 80 rounds per 512-bit
block. -/

/-- Read a big-endian 32-bit word from the first four bytes of a list. -/
def beWord (bs : List Nat) : Nat :=
  16777216 * bs.getD 0 0 + 65536 * bs.getD 1 0 + 256 * bs.getD 2 0 + bs.getD 3 0

/-- Serialize a 32-bit word to four big-endian bytes. -/
def wordBE (w : Nat) : List Nat :=
  [(w >>> 24) % 256, (w >>> 16) % 256, (w >>> 8) % 256, w % 256]

/-- SHA-1 padding: like MD5 but the 64-bit bit length is big-endian. -/
def sha1Pad (msg : List Nat) : List Nat :=
  let len := msg.length
  let zeros := (64 + 56 - ((len + 1) % 64)) % 64
  let bitLen := (len * 8) % 18446744073709551616
  msg ++ [128] ++ List.replicate zeros 0 ++
    ((List.range 8).map fun i => (bitLen >>> (8 * (7 - i))) % 256)

/-- Expand a 64-byte block into the 80 words of the SHA-1 schedule. -/
def sha1Schedule (block : List Nat) : List Nat :=
  (List.range 80).foldl
    (fun ws i =>
      if i < 16 then ws ++ [beWord (block.drop (4 * i))]
      else ws ++ [rotl32 (ws.getD (i - 3) 0 ^^^ ws.getD (i - 8) 0 ^^^
                          ws.getD (i - 14) 0 ^^^ ws.getD (i - 16) 0) 1])
    []

/-- The SHA-1 round function and constant for round `i`. -/
def sha1FK (i b c d : Nat) : Nat × Nat :=
  if i < 20 then ((b &&& c) ||| (not32 b &&& d), 0x5a827999)
  else if i < 40 then (b ^^^ c ^^^ d, 0x6ed9eba1)
  else if i < 60 then ((b &&& c) ||| (b &&& d) ||| (c &&& d), 0x8f1bbcdc)
  else (b ^^^ c ^^^ d, 0xca62c1d6)

/-- One SHA-1 round on the state `(a, b, c, d, e)`. -/
def sha1Round (w : Nat → Nat) (st : Nat × Nat × Nat × Nat × Nat) (i : Nat) :
    Nat × Nat × Nat × Nat × Nat :=
  let (a, b, c, d, e) := st
  let (f, k) := sha1FK i b c d
  let t := w32 (rotl32 a 5 + f + e + k + w i)
  (t, a, rotl32 b 30, c, d)

/-- Compress one 64-byte block into the SHA-1 state. -/
def sha1Block (block : List Nat) (h : Nat × Nat × Nat × Nat × Nat) :
    Nat × Nat × Nat × Nat × Nat :=
  let ws := sha1Schedule block
  let (a, b, c, d, e) := (List.range 80).foldl (sha1Round fun i => ws.getD i 0) h
  (w32 (h.1 + a), w32 (h.2.1 + b), w32 (h.2.2.1 + c),
   w32 (h.2.2.2.1 + d), w32 (h.2.2.2.2 + e))

/-- Fold the SHA-1 block compression over a padded message. -/
def sha1Blocks (fuel : Nat) (msg : List Nat) (h : Nat × Nat × Nat × Nat × Nat) :
    Nat × Nat × Nat × Nat × Nat :=
  match fuel, msg with
  | 0, _ => h
  | _, [] => h
  | fuel + 1, msg => sha1Blocks fuel (msg.drop 64) (sha1Block (msg.take 64) h)

/-- The SHA-1 digest of a byte list: 20 bytes. -/
def sha1 (msg : List Nat) : List Nat :=
  let padded := sha1Pad msg
  let (a, b, c, d, e) :=
    sha1Blocks padded.length padded
      (0x67452301, 0xefcdab89, 0x98badcfe, 0x10325476, 0xc3d2e1f0)
  wordBE a ++ wordBE b ++ wordBE c ++ wordBE d ++ wordBE e

/-! ## HMAC-SHA1 (`crypto/hmac` with `sha1.New`) -/

/-- HMAC with SHA-1 (RFC 2104, block size 64): keys longer than one
block are first hashed, then the key is zero-padded to the block
size and combined with the inner/outer pads. -/
def hmacSha1 (key msg : List Nat) : List Nat :=
  let k0 := if key.length > 64 then sha1 key else key
  let k := k0 ++ List.replicate (64 - k0.length) 0
  let ipad := k.map fun b => b ^^^ 0x36
  let opad := k.map fun b => b ^^^ 0x5c
  sha1 (opad ++ sha1 (ipad ++ msg))

/-! ## Base64 (`encoding/base64`, `StdEncoding`) -/

/-- The standard base64 alphabet. -/
def base64Alphabet : List Char :=
  "ABCDEFGHIJKLMNOPQRSTUVWXYZabcdefghijklmnopqrstuvwxyz0123456789+/".data

/-- Index into the standard base64 alphabet. -/
def b64 (n : Nat) : Char := base64Alphabet.getD n 'A'

/-- Standard-alphabet base64 with `=` padding, three input bytes at a
time (Go's `base64.StdEncoding.EncodeToString`). -/
def base64Encode : List Nat → String
  | [] => ""
  | [b1] =>
      String.mk [b64 (b1 >>> 2), b64 ((b1 % 4) <<< 4), '=', '=']
  | [b1, b2] =>
      String.mk [b64 (b1 >>> 2), b64 (((b1 % 4) <<< 4) ||| (b2 >>> 4)),
                 b64 ((b2 % 16) <<< 2), '=']
  | b1 :: b2 :: b3 :: rest =>
      String.mk [b64 (b1 >>> 2), b64 (((b1 % 4) <<< 4) ||| (b2 >>> 4)),
                 b64 (((b2 % 16) <<< 2) ||| (b3 >>> 6)), b64 (b3 % 64)] ++
      base64Encode rest

/-! ## Strings as bytes -/

/-- The UTF-8 bytes of a string, as Go's `[]byte(s)` conversion. -/
def strBytes (s : String) : List Nat :=
  s.toUTF8.toList.map UInt8.toNat

/-! ## The request signer (`sign.go`)

`*http.Request` is modelled by the parts `prepare` and `sign` read:
the method, the URL path and the header map.  `Header.Set` replaces
any previous value of the key; `Header.Get` returns the value or `""`
when the header is absent. -/

/-- The parts of a `*http.Request` the signer reads and writes. -/
structure HRequest where
  method : String
  urlPath : String
  headers : List (String × String)

/-- `req.Header.Set(k, v)`: replace any existing value of `k`. -/
def headerSet (r : HRequest) (k v : String) : HRequest :=
  { r with headers := (k, v) :: r.headers.filter fun p => p.1 ≠ k }

/-- `req.Header.Get(k)`: the value of `k`, or `""` when absent. -/
def headerGet (r : HRequest) (k : String) : String :=
  match r.headers.find? (fun p => p.1 == k) with
  | some p => p.2
  | none => ""

/-- The bytes the source feeds to the MD5 hash: the body when it is
non-nil, nothing otherwise (`if body != nil { md5Hash.Write(body) }`). -/
def bodyBytes : Option (List Nat) → List Nat
  | none => []
  | some b => b

/-- The content hash used in the canonical string: the `%x`
(lowercase hex) rendering of the MD5 digest of the body bytes. -/
def contentHash (body : Option (List Nat)) : String :=
  hexLower (md5 (bodyBytes body))

/-- `sign` from `sign.go`: HMAC-SHA1 over the canonical string
`"%s\n%x\n%s\n%s\n%s"` of method, MD5 body digest, `Content-Type`
header, `Date` header and URL path, base64-encoded. -/
def sign (secretKey : String) (r : HRequest) (body : Option (List Nat)) : String :=
  let canonical :=
    r.method ++ "\n" ++ contentHash body ++ "\n" ++
      headerGet r "Content-Type" ++ "\n" ++ headerGet r "Date" ++ "\n" ++ r.urlPath
  base64Encode (hmacSha1 (strBytes secretKey) (strBytes canonical))

/-- `prepare` from `sign.go`: set the `Date` and `Content-Type`
headers, sign the request, and set the `Authorization` header to
`VWS <access-key>:<signature>`.  The formatted current UTC time is
passed in as `now`. -/
def prepare (secretKey accessKey now : String) (req : HRequest)
    (body : Option (List Nat)) : HRequest :=
  let req1 := headerSet req "Date" now
  let req2 := headerSet req1 "Content-Type" "application/json"
  let signature := sign secretKey req2 body
  headerSet req2 "Authorization" ("VWS " ++ accessKey ++ ":" ++ signature)

/-- Modelled from the spec: "joining, with newline separators" a list
of canonical-string components.  Used to compare the source's
formatted string against the spec's description. -/
def joinNewlines : List String → String
  | [] => ""
  | [s] => s
  | s :: rest => s ++ "\n" ++ joinNewlines rest

/-! ## Errors (`errors.go`)

`error` values returned by the library are modelled by the inductive
`VError`: a local precondition error carrying its message, a
structured `APIError`, the generic 5xx server error carrying the
status code it mentions, or a context-cancellation error
(`ctx.Err()`). -/

/-- The structured API error of `errors.go`, decoded from a 4xx
response body. -/
structure APIError where
  ResultCode : String
  TransactionId : String
  deriving DecidableEq, Repr

/-- The static result-code → description table of `errors.go`. -/
def vuforiaAPIErrors : List (String × String) :=
  [("AuthenticationFailure", "Signature authentication failed"),
   ("RequestTimeTooSkewed", "Request timestamp outside allowed range"),
   ("TargetNameExist", "The corresponding target name already exists"),
   ("RequestQuotaReached", "The maximum number of API calls for this database has been reached"),
   ("TargetStatusProcessing", "The target is in the processing state and cannot be updated"),
   ("TargetStatusNotSuccess", "The request could not be completed because the target is not in the success state"),
   ("TargetQuotaReached", "The maximum number of targets for this database has been reached"),
   ("ProjectSuspended", "The request could not be completed because this database has been suspended"),
   ("ProjectInactive", "The request could not be completed because this database is inactive"),
   ("ProjectHasNoApiAccess", "The request could not be completed because this database is not allowed to make API requests"),
   ("UnknownTarget", "The specified target ID does not exist"),
   ("BadImage", "Image corrupted or format not supported"),
   ("ImageTooLarge", "Target metadata size exceeds maximum limit"),
   ("MetadataTooLarge", "Image size exceeds maximum limit"),
   ("DateRangeError", "Start date is after the end date"),
   ("Fail", "The request was invalid and could not be processed (Check the request headers and fields)")]

/-- Go map indexing with a missing key yields the zero value `""`. -/
def lookupAPIErrorDesc (code : String) : String :=
  ((vuforiaAPIErrors.find? fun p => p.1 == code).map Prod.snd).getD ""

/-- `APIError.Error()` of `errors.go`. -/
def APIError.message (e : APIError) : String :=
  "vuforia request failed (ResultCode = " ++ e.ResultCode ++
    ", Transaction ID = " ++ e.TransactionId ++ "): " ++
    lookupAPIErrorDesc e.ResultCode

/-- The `error` values the library can return. -/
inductive VError where
  | localErr (msg : String)
  | apiErr (e : APIError)
  | serverErr (status : Nat)
  | ctxCanceled
  deriving DecidableEq, Repr

/-! ## Typed responses and the HTTP exchange model

The JSON response body is modelled, already parsed, as a record
`RespBody` carrying every field any decoder of this client reads
(Go's decoder fills absent fields with zero values, so a total record
is faithful for well-formed bodies; malformed-JSON decode failures
are outside this model).  An HTTP transport is a function
`HTTPWorld` from a transport reference and a request to a response:
`TransportRef.defaultClient` stands for the process-wide
`http.DefaultClient`, `TransportRef.custom i` for a caller-supplied
`*http.Client`. -/

/-- The nested `target_record` object. -/
structure RespRecord where
  target_id : String
  active_flag : Bool
  name : String
  width : Float
  tracking_rating : Int

/-- A parsed JSON response body: the union of fields the client's
decoders read. -/
structure RespBody where
  result_code : String
  transaction_id : String
  status : String
  target_id : String
  target_record : RespRecord
  database_name : String
  target_name : String
  upload_date : String
  active_flag : Bool
  tracking_rating : Int
  total_recos : Int
  current_month_recos : Int
  previous_month_recos : Int
  name : String
  active_images : Int
  inactive_images : Int
  failed_images : Int

/-- The parts of an `*http.Response` the client reads. -/
structure HTTPResponse where
  statusCode : Nat
  body : RespBody

/-- `isServerError` of `errors.go`: `status >= 500`. -/
def isServerError (status : Nat) : Bool := 500 ≤ status

/-- `isAPIError` of `errors.go`: `400 <= status < 500`. -/
def isAPIError (status : Nat) : Bool := 400 ≤ status && status < 500

/-- `checkError` of `errors.go`: a 5xx response maps to the generic
retry-later error (built from the status code alone), a 4xx response
decodes the body into an `APIError`, anything else is no error. -/
def checkError (resp : HTTPResponse) : Option VError :=
  if isServerError resp.statusCode then
    some (.serverErr resp.statusCode)
  else if isAPIError resp.statusCode then
    some (.apiErr ⟨resp.body.result_code, resp.body.transaction_id⟩)
  else
    none

/-! ## Request/response structs of `vuforia_client.go` -/

structure PostTargetRequest where
  Name : String
  Width : Float
  Image : String
  Active : Option Bool
  Metadata : Option String

structure PostTargetResponse where
  TargetId : String
  TransactionId : String
  ResultCode : String

structure GetTargetRequest where
  TargetId : String

/-- The nested target record of `GetTargetResponse`. -/
structure TargetRecord where
  TargetId : String
  Active : Bool
  Name : String
  Width : Float
  TrackingRating : Int

structure GetTargetResponse where
  TransactionId : String
  ResultCode : String
  Status : String
  TargetRecord : TargetRecord

structure UpdateTargetRequest where
  TargetId : String
  Name : Option String
  Width : Option Float
  Image : Option String
  Active : Option Bool
  Metadata : Option String

structure UpdateTargetResponse where
  TransactionId : String
  ResultCode : String

structure DeleteTargetRequest where
  TargetId : String

structure DeleteTargetResponse where
  TransactionId : String
  ResultCode : String

structure TargetSummaryRequest where
  TargetId : String

structure TargetSummaryResponse where
  TransactionId : String
  ResultCode : String
  Status : String
  DatabaseName : String
  TargetName : String
  UploadDate : String
  Active : Bool
  TrackingRating : Int
  TotalRecos : Int
  CurrentMonthRecos : Int
  PreviousMonthRecos : Int

structure DatabaseSummaryResponse where
  TransactionId : String
  ResultCode : String
  Name : String
  ActiveImages : Int
  InactiveImages : Int
  FailedImages : Int

/-! ### JSON decoding of the typed responses

`json.Decoder.Decode` into a struct picks, from the parsed body, the
fields named by the struct's tags. -/

def decodePostTargetResponse (b : RespBody) : PostTargetResponse :=
  ⟨b.target_id, b.transaction_id, b.result_code⟩

def decodeGetTargetResponse (b : RespBody) : GetTargetResponse :=
  ⟨b.transaction_id, b.result_code, b.status,
   ⟨b.target_record.target_id, b.target_record.active_flag,
    b.target_record.name, b.target_record.width, b.target_record.tracking_rating⟩⟩

def decodeUpdateTargetResponse (b : RespBody) : UpdateTargetResponse :=
  ⟨b.transaction_id, b.result_code⟩

def decodeDeleteTargetResponse (b : RespBody) : DeleteTargetResponse :=
  ⟨b.transaction_id, b.result_code⟩

def decodeTargetSummaryResponse (b : RespBody) : TargetSummaryResponse :=
  ⟨b.transaction_id, b.result_code, b.status, b.database_name, b.target_name,
   b.upload_date, b.active_flag, b.tracking_rating, b.total_recos,
   b.current_month_recos, b.previous_month_recos⟩

def decodeDatabaseSummaryResponse (b : RespBody) : DatabaseSummaryResponse :=
  ⟨b.transaction_id, b.result_code, b.name, b.active_images,
   b.inactive_images, b.failed_images⟩

/-! ## JSON marshalling of request payloads

`json.Marshal` on the request structs: a field tagged `json:"-"` is
never emitted, a `*T` field with `omitempty` is omitted when the
pointer is nil, other fields are always emitted, in struct order.
The payload is modelled as the resulting ordered key/value list. -/

/-- A JSON value appearing in a marshalled request payload. -/
inductive Jval where
  | jstr (s : String)
  | jnum (x : Float)
  | jbool (b : Bool)

/-- An optional (`*T` with `omitempty`) field: omitted when nil. -/
def optField {α : Type} (k : String) (f : α → Jval) : Option α → List (String × Jval)
  | none => []
  | some v => [(k, f v)]

/-- `json.Marshal` of `PostTargetRequest`: `name`, `width`, `image`
always; `active_flag` and `application_metadata` only when set. -/
def marshalPostTargetRequest (r : PostTargetRequest) : List (String × Jval) :=
  [("name", .jstr r.Name), ("width", .jnum r.Width), ("image", .jstr r.Image)] ++
    optField "active_flag" Jval.jbool r.Active ++
    optField "application_metadata" Jval.jstr r.Metadata

/-- `json.Marshal` of `UpdateTargetRequest`: `TargetId` is tagged
`json:"-"` and never emitted; every other field is a nil-omitted
optional pointer. -/
def marshalUpdateTargetRequest (r : UpdateTargetRequest) : List (String × Jval) :=
  optField "name" Jval.jstr r.Name ++
    optField "width" Jval.jnum r.Width ++
    optField "image" Jval.jstr r.Image ++
    optField "active_flag" Jval.jbool r.Active ++
    optField "application_metadata" Jval.jstr r.Metadata

/-! ## The client and its operations (`vuforia_client.go`)

Each operation builds a `RequestSpec` (method, path under
`vws.vuforia.com`, marshalled payload), sends it through an HTTP
transport, and decodes the typed response from the body.  Which
transport an operation sends through is part of the embedding:
`GetTarget`, `DeleteTarget`, `TargetSummary` and `DatabaseSummary`
call `c.cfg.Client.Do`, while `PostTarget` and `UpdateTarget` call
`http.DefaultClient.Do`.  None of the operations in
`vuforia_client.go` consult the response status code or call
`checkError`; they decode the typed response unconditionally. -/

/-- A reference to an HTTP transport: the process-wide
`http.DefaultClient`, or a caller-supplied client. -/
inductive TransportRef where
  | defaultClient
  | custom (id : Nat)
  deriving DecidableEq, Repr

/-- `ClientConfig` of `vuforia_client.go`; `Client = none` models a
nil `*http.Client`. -/
structure ClientConfig where
  SecretKey : String
  AccessKey : String
  Client : Option TransportRef

/-- The constructed client: after `NewClient`, `cfg.Client` is never
nil. -/
structure ClientState where
  SecretKey : String
  AccessKey : String
  clientRef : TransportRef

/-- `NewClient`: reject empty keys; default the transport to
`http.DefaultClient` when none is supplied. -/
def NewClient (cfg : ClientConfig) : Except String ClientState :=
  if cfg.SecretKey = "" then .error "vuforia SecretKey must be set"
  else if cfg.AccessKey = "" then .error "vuforia AccessKey must be set"
  else .ok ⟨cfg.SecretKey, cfg.AccessKey, cfg.Client.getD TransportRef.defaultClient⟩

/-- A request as handed to a transport's `Do`. -/
structure RequestSpec where
  method : String
  urlPath : String
  payload : Option (List (String × Jval))

/-- An HTTP transport environment: what response each transport
returns for each request. -/
def HTTPWorld : Type := TransportRef → RequestSpec → HTTPResponse

def postTargetReqSpec (input : PostTargetRequest) : RequestSpec :=
  ⟨"POST", "/targets", some (marshalPostTargetRequest input)⟩

def getTargetReqSpec (input : GetTargetRequest) : RequestSpec :=
  ⟨"GET", "/targets/" ++ input.TargetId, none⟩

def updateTargetReqSpec (input : UpdateTargetRequest) : RequestSpec :=
  ⟨"PUT", "/targets/" ++ input.TargetId, some (marshalUpdateTargetRequest input)⟩

def deleteTargetReqSpec (input : DeleteTargetRequest) : RequestSpec :=
  ⟨"DELETE", "/targets/" ++ input.TargetId, none⟩

def targetSummaryReqSpec (input : TargetSummaryRequest) : RequestSpec :=
  ⟨"GET", "/summary/" ++ input.TargetId, none⟩

def databaseSummaryReqSpec : RequestSpec :=
  ⟨"GET", "/summary", none⟩

/-- `PostTarget`: marshal, send through `http.DefaultClient.Do`,
decode the typed response from the body (no status check). -/
def PostTarget (_c : ClientState) (world : HTTPWorld) (input : PostTargetRequest) :
    Except VError PostTargetResponse :=
  let resp := world TransportRef.defaultClient (postTargetReqSpec input)
  .ok (decodePostTargetResponse resp.body)

/-- `GetTarget`: reject an empty id locally, else send through
`c.cfg.Client.Do` and decode the typed response (no status check). -/
def GetTarget (c : ClientState) (world : HTTPWorld) (input : GetTargetRequest) :
    Except VError GetTargetResponse :=
  if input.TargetId = "" then .error (.localErr "TargetId must be provided")
  else
    let resp := world c.clientRef (getTargetReqSpec input)
    .ok (decodeGetTargetResponse resp.body)

/-- `UpdateTarget`: reject an empty id locally, else marshal, send
through `http.DefaultClient.Do` and decode the typed response. -/
def UpdateTarget (_c : ClientState) (world : HTTPWorld) (input : UpdateTargetRequest) :
    Except VError UpdateTargetResponse :=
  if input.TargetId = "" then .error (.localErr "TargetId must be provided")
  else
    let resp := world TransportRef.defaultClient (updateTargetReqSpec input)
    .ok (decodeUpdateTargetResponse resp.body)

/-- `DeleteTarget`: reject an empty id locally, else send through
`c.cfg.Client.Do` and decode the typed response. -/
def DeleteTarget (c : ClientState) (world : HTTPWorld) (input : DeleteTargetRequest) :
    Except VError DeleteTargetResponse :=
  if input.TargetId = "" then .error (.localErr "TargetId must be provided")
  else
    let resp := world c.clientRef (deleteTargetReqSpec input)
    .ok (decodeDeleteTargetResponse resp.body)

/-- `TargetSummary`: reject an empty id locally, else send through
`c.cfg.Client.Do` and decode the typed response. -/
def TargetSummary (c : ClientState) (world : HTTPWorld) (input : TargetSummaryRequest) :
    Except VError TargetSummaryResponse :=
  if input.TargetId = "" then .error (.localErr "TargetId must be provided")
  else
    let resp := world c.clientRef (targetSummaryReqSpec input)
    .ok (decodeTargetSummaryResponse resp.body)

/-- `DatabaseSummary`: send through `c.cfg.Client.Do` and decode the
typed response. -/
def DatabaseSummary (c : ClientState) (world : HTTPWorld) :
    Except VError DatabaseSummaryResponse :=
  let resp := world c.clientRef databaseSummaryReqSpec
  .ok (decodeDatabaseSummaryResponse resp.body)

/-! ## The processing waiter (`wait.go`)

The loop is driven by a list of iteration events: at each `select`,
either the cancellation signal fires first (`PollEvent.canceled`), or
the timer fires and the `GetTarget` call returns the given result
(`PollEvent.tick`).  `waitLoop` returns the outcome, the interval the
loop waited before each poll, and the number of polls it performed;
running out of events models a loop still waiting. -/

/-- One iteration of the waiter's `select`. -/
inductive PollEvent where
  | canceled
  | tick (r : Except VError GetTargetResponse)

/-- How the waiter ended: `finished none` is the nil return,
`finished (some e)` an error return, `outOfEvents` a loop still
running when the simulated events are exhausted. -/
inductive WaitOutcome where
  | finished (e : Option VError)
  | outOfEvents
  deriving DecidableEq, Repr

/-- The observable behaviour of a `WaitUntilProcessed` run. -/
structure WaitResult where
  outcome : WaitOutcome
  intervals : List Nat
  polls : Nat
  deriving DecidableEq, Repr

/-- `defaultInterval := 5 * time.Second`, in seconds. -/
def defaultInterval : Nat := 5

/-- `extendedInterval := 30 * time.Second`, in seconds. -/
def extendedInterval : Nat := 30

/-- `strings.ToLower` (the ASCII case mapping suffices for the
statuses and result codes this client compares). -/
def lowerStr (s : String) : String := ⟨s.data.map Char.toLower⟩

/-- `strings.EqualFold` (ASCII case-insensitive equality suffices for
the result codes compared here). -/
def eqFold (s t : String) : Bool := lowerStr s == lowerStr t

/-- The waiter's rate-limit test: `errors.As(err, &ae)` succeeds
exactly on an `APIError`, whose code is then compared fold-insensitively
with `"RequestQuotaReached"`. -/
def isQuotaError : VError → Bool
  | .apiErr e => eqFold e.ResultCode "RequestQuotaReached"
  | _ => false

/-- The waiter's status switch on `strings.ToLower(output.Status)`:
`"failed"` and `"success"` are terminal, `"processing"` and anything
else continue the loop. -/
def isTerminalStatus (s : String) : Bool :=
  match lowerStr s with
  | "failed" => true
  | "success" => true
  | _ => false

/-- Account one performed poll, waited for by `interval`, in front of
the rest of a run. -/
def consPoll (interval : Nat) (res : WaitResult) : WaitResult :=
  ⟨res.outcome, interval :: res.intervals, res.polls + 1⟩

/-- The loop of `WaitUntilProcessed`.  At a tick the source first
resets `interval = defaultInterval` and then overrides it with
`extendedInterval` in the rate-limit branch, so the continuation runs
with `extendedInterval` after a quota error and with
`defaultInterval` after a non-terminal status. -/
def waitLoop : Nat → List PollEvent → WaitResult
  | _, [] => ⟨.outOfEvents, [], 0⟩
  | _, .canceled :: _ => ⟨.finished (some VError.ctxCanceled), [], 0⟩
  | interval, .tick r :: rest =>
    match r with
    | .error e =>
        if isQuotaError e then consPoll interval (waitLoop extendedInterval rest)
        else ⟨.finished (some e), [interval], 1⟩
    | .ok output =>
        if isTerminalStatus output.Status then ⟨.finished none, [interval], 1⟩
        else consPoll interval (waitLoop defaultInterval rest)

/-- `WaitUntilProcessed`: the loop entered with the default interval. -/
def WaitUntilProcessed (events : List PollEvent) : WaitResult :=
  waitLoop defaultInterval events

/-- An event the loop continues past: a rate-limit error or a
non-terminal status. -/
def stepContinues : PollEvent → Bool
  | .canceled => false
  | .tick (.error e) => isQuotaError e
  | .tick (.ok output) => !(isTerminalStatus output.Status)

/-! ## Concrete sample data used by witnesses -/

/-- A well-typed sample target record. -/
def sampleRecord : TargetRecord := ⟨"tid", true, "name", 1, -1⟩

/-- A `GetTarget` response with the given status. -/
def respWithStatus (s : String) : GetTargetResponse :=
  ⟨"tx", "Success", s, sampleRecord⟩

/-- A sample parsed response body. -/
def sampleBody : RespBody :=
  ⟨"UnknownTarget", "tx1", "", "", ⟨"", false, "", 0, 0⟩,
   "", "", "", false, 0, 0, 0, 0, "", 0, 0, 0⟩

/-- A second, different parsed response body. -/
def sampleBody2 : RespBody :=
  ⟨"Success", "tx2", "success", "tid2", ⟨"tid2", true, "n2", 2, 5⟩,
   "db", "n2", "2021-01-01", true, 5, 1, 1, 1, "db", 3, 1, 0⟩

/-- A sample constructed client. -/
def sampleClient : ClientState := ⟨"secret", "access", TransportRef.custom 7⟩

/-- A transport environment that answers every request with status
404 and `sampleBody`. -/
def world404 : HTTPWorld := fun _ _ => ⟨404, sampleBody⟩

/-- A transport environment that answers every request with status
200 and `sampleBody2`. -/
def world200 : HTTPWorld := fun _ _ => ⟨200, sampleBody2⟩

/-! ### Header-map lemmas -/

theorem headerGet_set_same (r : HRequest) (k v : String) :
    headerGet (headerSet r k v) k = v := by
  simp [headerGet, headerSet]

theorem find?_filter_ne {k k' : String} (h : k' ≠ k) (l : List (String × String)) :
    List.find? (fun p => p.1 == k') (l.filter fun p => p.1 ≠ k) =
      List.find? (fun p => p.1 == k') l := by
  induction l with
  | nil => rfl
  | cons p t ih =>
      by_cases hp : p.1 = k
      · have h1 : ¬ (decide (p.1 ≠ k) = true) := by simp [hp]
        have h2 : ¬ ((p.1 == k') = true) := by
          simp only [beq_iff_eq, hp]
          exact fun e => h e.symm
        rw [List.filter_cons, if_neg h1, ih,
          @List.find?_cons_of_neg _ (fun q : String × String => q.1 == k') p t h2]
      · have h1 : decide (p.1 ≠ k) = true := by simp [hp]
        rw [List.filter_cons, if_pos h1]
        by_cases h2 : ((p.1 == k') = true)
        · rw [@List.find?_cons_of_pos _ (fun q : String × String => q.1 == k') p _ h2,
            @List.find?_cons_of_pos _ (fun q : String × String => q.1 == k') p t h2]
        · rw [@List.find?_cons_of_neg _ (fun q : String × String => q.1 == k') p _ h2,
            @List.find?_cons_of_neg _ (fun q : String × String => q.1 == k') p t h2, ih]

theorem headerGet_set_ne (r : HRequest) (k v k' : String) (h : k' ≠ k) :
    headerGet (headerSet r k v) k' = headerGet r k' := by
  have hbeq : ¬ (((k, v) : String × String).1 == k') = true := by
    simp only [beq_iff_eq]
    exact fun e => h e.symm
  simp only [headerGet, headerSet,
    @List.find?_cons_of_neg _ (fun q : String × String => q.1 == k') (k, v) _ hbeq,
    find?_filter_ne h]

theorem headerSet_method (r : HRequest) (k v : String) :
    (headerSet r k v).method = r.method := rfl

theorem headerSet_urlPath (r : HRequest) (k v : String) :
    (headerSet r k v).urlPath = r.urlPath := rfl

/-! ### Claims about the signer -/

/-- C1: `sign` produces the standard-alphabet padded base64 encoding
of the HMAC-SHA1 (keyed with the secret key) of the newline-join of
the method, the lowercase-hex MD5 digest of the body, the
Content-Type header value, the Date header value and the URL path;
and `prepare` sets the Authorization header to exactly
`VWS <access-id>:<signature>`, the signature being computed from the
header values it just set. -/
theorem claim_C1_sign_prepare (secret access now : String) (req : HRequest)
    (body : Option (List Nat)) :
    sign secret req body =
      base64Encode (hmacSha1 (strBytes secret)
        (strBytes (joinNewlines [req.method, hexLower (md5 (bodyBytes body)),
          headerGet req "Content-Type", headerGet req "Date", req.urlPath]))) ∧
    headerGet (prepare secret access now req body) "Authorization" =
      "VWS " ++ access ++ ":" ++
        base64Encode (hmacSha1 (strBytes secret)
          (strBytes (joinNewlines [req.method, hexLower (md5 (bodyBytes body)),
            "application/json", now, req.urlPath]))) := by
  constructor
  · simp only [sign, contentHash, joinNewlines, String.append_assoc]
  · have h1 : headerGet (headerSet (headerSet req "Date" now)
        "Content-Type" "application/json") "Date" = now := by
      rw [headerGet_set_ne _ _ _ _ (by decide : ("Date" : String) ≠ "Content-Type"),
        headerGet_set_same]
    simp only [prepare, headerGet_set_same, sign, contentHash,
      headerSet_method, headerSet_urlPath, h1, joinNewlines, String.append_assoc]

set_option maxRecDepth 100000 in
/-- C8: with a nil body the content hash used in the canonical
signing string is the lowercase-hex MD5 digest of zero bytes (the
digest of the empty input), and `sign` treats a nil body exactly as
an empty body. -/
theorem claim_C8_empty_body_hash :
    contentHash none = hexLower (md5 []) ∧
    hexLower (md5 []) = "d41d8cd98f00b204e9800998ecf8427e" ∧
    ∀ (secret : String) (r : HRequest), sign secret r none = sign secret r (some []) := by
  refine ⟨rfl, ?_, fun secret r => rfl⟩
  decide

/-! ### Validation of the hash embeddings against standard vectors -/

set_option maxRecDepth 100000 in
theorem md5_abc_vector : hexLower (md5 [97, 98, 99]) = "900150983cd24fb0d6963f7d28e17f72" := by
  decide

set_option maxRecDepth 100000 in
theorem sha1_empty_vector : hexLower (sha1 []) = "da39a3ee5e6b4b0d3255bfef95601890afd80709" := by
  decide

/-! ### Waiter lemmas -/

theorem waitLoop_tick_head (interval : Nat) (r : Except VError GetTargetResponse)
    (rest : List PollEvent) :
    (waitLoop interval (.tick r :: rest)).intervals.head? = some interval := by
  cases r with
  | error e =>
      by_cases h : isQuotaError e = true
      · simp [waitLoop, h, consPoll]
      · simp [waitLoop, h]
  | ok output =>
      by_cases h : isTerminalStatus output.Status = true
      · simp [waitLoop, h]
      · simp [waitLoop, h, consPoll]

theorem waitLoop_cancel_aux (pre : List PollEvent) :
    ∀ (interval : Nat) (rest : List PollEvent),
      (∀ ev ∈ pre, stepContinues ev = true) →
      (waitLoop interval (pre ++ PollEvent.canceled :: rest)).outcome =
          WaitOutcome.finished (some VError.ctxCanceled) ∧
      (waitLoop interval (pre ++ PollEvent.canceled :: rest)).polls = pre.length ∧
      waitLoop interval (pre ++ PollEvent.canceled :: rest) =
        waitLoop interval (pre ++ [PollEvent.canceled]) := by
  induction pre with
  | nil => exact fun interval rest h => ⟨rfl, rfl, rfl⟩
  | cons ev pre ih =>
      intro interval rest h
      have hev : stepContinues ev = true := h ev (List.mem_cons_self ev pre)
      have hpre : ∀ e ∈ pre, stepContinues e = true :=
        fun e he => h e (List.mem_cons_of_mem ev he)
      cases ev with
      | canceled => simp [stepContinues] at hev
      | tick r =>
          cases r with
          | error e =>
              have hq : isQuotaError e = true := by
                simpa [stepContinues] using hev
              have ihx := ih extendedInterval rest hpre
              have e1 : waitLoop interval
                  ((PollEvent.tick (Except.error e) :: pre) ++ PollEvent.canceled :: rest) =
                  consPoll interval
                    (waitLoop extendedInterval (pre ++ PollEvent.canceled :: rest)) := by
                simp [List.cons_append, waitLoop, hq]
              have e2 : waitLoop interval
                  ((PollEvent.tick (Except.error e) :: pre) ++ [PollEvent.canceled]) =
                  consPoll interval
                    (waitLoop extendedInterval (pre ++ [PollEvent.canceled])) := by
                simp [List.cons_append, waitLoop, hq]
              refine ⟨?_, ?_, ?_⟩
              · rw [e1]; simpa [consPoll] using ihx.1
              · rw [e1]; simp [consPoll, ihx.2.1]
              · rw [e1, e2, ihx.2.2]
          | ok output =>
              have ht : isTerminalStatus output.Status = false := by
                simpa [stepContinues] using hev
              have ihx := ih defaultInterval rest hpre
              have e1 : waitLoop interval
                  ((PollEvent.tick (Except.ok output) :: pre) ++ PollEvent.canceled :: rest) =
                  consPoll interval
                    (waitLoop defaultInterval (pre ++ PollEvent.canceled :: rest)) := by
                simp [List.cons_append, waitLoop, ht]
              have e2 : waitLoop interval
                  ((PollEvent.tick (Except.ok output) :: pre) ++ [PollEvent.canceled]) =
                  consPoll interval
                    (waitLoop defaultInterval (pre ++ [PollEvent.canceled])) := by
                simp [List.cons_append, waitLoop, ht]
              refine ⟨?_, ?_, ?_⟩
              · rw [e1]; simpa [consPoll] using ihx.1
              · rw [e1]; simp [consPoll, ihx.2.1]
              · rw [e1, e2, ihx.2.2]

/-! ### Claims about the waiter -/

/-- C3: when a poll fails with an `APIError` whose result code is
`RequestQuotaReached` compared case-insensitively, the loop continues
and the interval waited before the next poll is 30 seconds; when a
poll fails with any other error, that error is returned immediately
with no further polls. -/
theorem claim_C3_quota_backoff (interval : Nat) (e : VError) (rest : List PollEvent) :
    (isQuotaError e = true →
      waitLoop interval (.tick (.error e) :: rest) =
        consPoll interval (waitLoop extendedInterval rest)) ∧
    (∀ (r : Except VError GetTargetResponse) (rest2 : List PollEvent),
      isQuotaError e = true →
      (waitLoop interval (.tick (.error e) :: .tick r :: rest2)).intervals.get? 1 =
        some 30) ∧
    (isQuotaError e = false →
      waitLoop interval (.tick (.error e) :: rest) =
        ⟨.finished (some e), [interval], 1⟩) ∧
    (isQuotaError e = true ↔
      ∃ ae : APIError, e = .apiErr ae ∧ eqFold ae.ResultCode "RequestQuotaReached" = true) := by
  refine ⟨fun hq => by simp [waitLoop, hq], fun r rest2 hq => ?_, fun hq => by simp [waitLoop, hq], ?_⟩
  · have h30 : (waitLoop extendedInterval (.tick r :: rest2)).intervals.head? =
        some extendedInterval := waitLoop_tick_head extendedInterval r rest2
    have e1 : waitLoop interval (.tick (.error e) :: .tick r :: rest2) =
        consPoll interval (waitLoop extendedInterval (.tick r :: rest2)) := by
      simp [waitLoop, hq]
    rw [e1]
    cases hi : (waitLoop extendedInterval (PollEvent.tick r :: rest2)).intervals with
    | nil => rw [hi] at h30; simp at h30
    | cons a t =>
        rw [hi] at h30
        simp only [List.head?, Option.some.injEq] at h30
        simp only [consPoll, List.get?_cons_succ, hi, List.get?_cons_zero, h30]
        rfl
  · constructor
    · intro hq
      cases e with
      | apiErr ae => exact ⟨ae, rfl, by simpa [isQuotaError] using hq⟩
      | localErr m => simp [isQuotaError] at hq
      | serverErr s => simp [isQuotaError] at hq
      | ctxCanceled => simp [isQuotaError] at hq
    · rintro ⟨ae, rfl, hf⟩
      simpa [isQuotaError] using hf

/-- Witness for C3 at concrete inputs: a lowercase-coded quota error
continues with the 30-second interval, and a local error is returned
at once. -/
theorem claim_C3_witness :
    waitLoop 5 [.tick (.error (VError.apiErr ⟨"requestquotareached", "tx"⟩)),
        .tick (.ok (respWithStatus "success"))] =
      consPoll 5 (waitLoop 30 [.tick (.ok (respWithStatus "success"))]) ∧
    (waitLoop 5 [.tick (.error (VError.apiErr ⟨"requestquotareached", "tx"⟩)),
        .tick (.ok (respWithStatus "success"))]).intervals.get? 1 = some 30 ∧
    waitLoop 5 [.tick (.error (VError.localErr "boom"))] =
      ⟨.finished (some (VError.localErr "boom")), [5], 1⟩ :=
  ⟨(claim_C3_quota_backoff 5 (VError.apiErr ⟨"requestquotareached", "tx"⟩)
      [.tick (.ok (respWithStatus "success"))]).1 (by decide),
   (claim_C3_quota_backoff 5 (VError.apiErr ⟨"requestquotareached", "tx"⟩)
      [.tick (.ok (respWithStatus "success"))]).2.1 (.ok (respWithStatus "success")) []
      (by decide),
   (claim_C3_quota_backoff 5 (VError.localErr "boom") []).2.2.1 (by decide)⟩

/-- C4: the waiter returns nil exactly at a successful poll whose
status is, case-insensitively, `success` or `failed`; `processing`
and unrecognized statuses continue with the interval reset to the
5-second default; and the simulated sequence
`[processing, processing, success]` returns nil after exactly 3 polls
with the default interval before each poll. -/
theorem claim_C4_terminal_status :
    (∀ s : String, isTerminalStatus s =
        (lowerStr s == "success" || lowerStr s == "failed")) ∧
    (∀ (interval : Nat) (out : GetTargetResponse) (rest : List PollEvent),
      isTerminalStatus out.Status = true →
      waitLoop interval (.tick (.ok out) :: rest) = ⟨.finished none, [interval], 1⟩) ∧
    (∀ (interval : Nat) (out : GetTargetResponse) (rest : List PollEvent),
      isTerminalStatus out.Status = false →
      waitLoop interval (.tick (.ok out) :: rest) =
        consPoll interval (waitLoop defaultInterval rest)) ∧
    WaitUntilProcessed [.tick (.ok (respWithStatus "processing")),
        .tick (.ok (respWithStatus "processing")),
        .tick (.ok (respWithStatus "success"))] =
      ⟨.finished none, [5, 5, 5], 3⟩ := by
  refine ⟨?_, fun interval out rest ht => by simp [waitLoop, ht],
    fun interval out rest ht => by simp [waitLoop, ht], by decide⟩
  intro s
  unfold isTerminalStatus
  split <;> simp_all

/-- Witness for C4 at concrete inputs: a capitalized terminal status
returns nil at once; a processing status continues. -/
theorem claim_C4_witness :
    waitLoop 5 [.tick (.ok (respWithStatus "Failed"))] = ⟨.finished none, [5], 1⟩ ∧
    waitLoop 5 [.tick (.ok (respWithStatus "processing"))] =
      consPoll 5 (waitLoop defaultInterval []) :=
  ⟨claim_C4_terminal_status.2.1 5 (respWithStatus "Failed") [] (by decide),
   claim_C4_terminal_status.2.2.1 5 (respWithStatus "processing") [] (by decide)⟩

/-- C5: if the cancellation signal fires before any terminal status
was observed, the waiter returns the context's error with exactly the
polls performed so far, and the events after the cancellation are
never consumed. -/
theorem claim_C5_cancellation (interval : Nat) (pre rest : List PollEvent)
    (h : ∀ ev ∈ pre, stepContinues ev = true) :
    (waitLoop interval (pre ++ PollEvent.canceled :: rest)).outcome =
        WaitOutcome.finished (some VError.ctxCanceled) ∧
    (waitLoop interval (pre ++ PollEvent.canceled :: rest)).polls = pre.length ∧
    waitLoop interval (pre ++ PollEvent.canceled :: rest) =
      waitLoop interval (pre ++ [PollEvent.canceled]) :=
  waitLoop_cancel_aux pre interval rest h

/-- Witness for C5 at concrete inputs: cancellation after one
processing poll returns the context error having performed one poll,
ignoring the rest. -/
theorem claim_C5_witness :
    (waitLoop 5 ([.tick (.ok (respWithStatus "processing"))] ++
        PollEvent.canceled :: [.tick (.ok (respWithStatus "success"))])).outcome =
      WaitOutcome.finished (some VError.ctxCanceled) ∧
    (waitLoop 5 ([.tick (.ok (respWithStatus "processing"))] ++
        PollEvent.canceled :: [.tick (.ok (respWithStatus "success"))])).polls = 1 ∧
    waitLoop 5 ([.tick (.ok (respWithStatus "processing"))] ++
        PollEvent.canceled :: [.tick (.ok (respWithStatus "success"))]) =
      waitLoop 5 ([.tick (.ok (respWithStatus "processing"))] ++ [PollEvent.canceled]) :=
  claim_C5_cancellation 5 [.tick (.ok (respWithStatus "processing"))]
    [.tick (.ok (respWithStatus "success"))]
    (by intro ev hev; simp at hev; subst hev; decide)

/-- C10: the first poll always happens after one full default
interval (5 seconds) of waiting; and when the context is already
cancelled at entry the waiter returns the context error with zero
polls performed. -/
theorem claim_C10_entry_behaviour :
    (∀ (r : Except VError GetTargetResponse) (rest : List PollEvent),
      (WaitUntilProcessed (PollEvent.tick r :: rest)).intervals.head? =
        some defaultInterval ∧ defaultInterval = 5) ∧
    (∀ rest : List PollEvent,
      WaitUntilProcessed (PollEvent.canceled :: rest) =
        ⟨.finished (some VError.ctxCanceled), [], 0⟩) := by
  exact ⟨fun r rest => ⟨waitLoop_tick_head defaultInterval r rest, rfl⟩,
    fun rest => rfl⟩

/-! ### Claims about error classification and the CRUD operations -/

/-- C2 (amended): `checkError` classifies a 4xx response into a
structured `APIError` carrying the body's result code and transaction
id, a 5xx response into the generic retry-later error computed from
the status code alone (for every body alike, i.e. without decoding
it), and any other status into no error; however the CRUD operations
of `vuforia_client.go` never invoke `checkError` — `GetTarget`
returns the decoded typed response for every status code. -/
theorem claim_C2_checkError_classification (resp : HTTPResponse) :
    (400 ≤ resp.statusCode → resp.statusCode < 500 →
      checkError resp =
        some (.apiErr ⟨resp.body.result_code, resp.body.transaction_id⟩)) ∧
    (500 ≤ resp.statusCode → ∀ b : RespBody,
      checkError ⟨resp.statusCode, b⟩ = some (.serverErr resp.statusCode)) ∧
    (resp.statusCode < 400 → checkError resp = none) ∧
    (∀ (st : ClientState) (world : HTTPWorld) (input : GetTargetRequest),
      input.TargetId ≠ "" →
      GetTarget st world input =
        .ok (decodeGetTargetResponse
          ((world st.clientRef (getTargetReqSpec input)).body))) := by
  refine ⟨fun h4 h5 => ?_, fun h5 b => ?_, fun h4 => ?_, fun st world input hid => ?_⟩
  · have hs : isServerError resp.statusCode = false := by
      simp only [isServerError, decide_eq_false_iff_not]; omega
    have ha : isAPIError resp.statusCode = true := by
      simp only [isAPIError, Bool.and_eq_true, decide_eq_true_eq]; omega
    simp [checkError, hs, ha]
  · have hs : isServerError resp.statusCode = true := by
      simp only [isServerError, decide_eq_true_eq]; omega
    simp [checkError, hs]
  · have hs : isServerError resp.statusCode = false := by
      simp only [isServerError, decide_eq_false_iff_not]; omega
    have ha : isAPIError resp.statusCode = false := by
      simp only [isAPIError, Bool.and_eq_false_iff, decide_eq_false_iff_not]; omega
    simp [checkError, hs, ha]
  · simp [GetTarget, hid]

/-- Witness for C2's amended classification at concrete responses:
404 yields the structured error with the body's fields, 503 the
generic server error, 200 no error, and a 404-answering transport
still gets a typed `.ok` out of `GetTarget`. -/
theorem claim_C2_witness :
    checkError ⟨404, sampleBody⟩ = some (.apiErr ⟨"UnknownTarget", "tx1"⟩) ∧
    checkError ⟨503, sampleBody⟩ = some (.serverErr 503) ∧
    checkError ⟨200, sampleBody2⟩ = none ∧
    GetTarget sampleClient world404 ⟨"abc"⟩ =
      .ok (decodeGetTargetResponse
        ((world404 sampleClient.clientRef (getTargetReqSpec ⟨"abc"⟩)).body)) :=
  ⟨(claim_C2_checkError_classification ⟨404, sampleBody⟩).1 (by decide) (by decide),
   (claim_C2_checkError_classification ⟨503, sampleBody⟩).2.1 (by decide) sampleBody,
   (claim_C2_checkError_classification ⟨200, sampleBody2⟩).2.2.1 (by decide),
   (claim_C2_checkError_classification ⟨404, sampleBody⟩).2.2.2 sampleClient world404
     ⟨"abc"⟩ (by decide)⟩

/-- C2 counterexample: against a transport answering 404 (a 4xx
status), `GetTarget` does not return a structured `APIError`: it
returns the decoded typed success struct with no error at all. -/
theorem claim_C2_counterexample :
    GetTarget sampleClient world404 ⟨"abc"⟩ =
      .ok ⟨"tx1", "UnknownTarget", "", ⟨"", false, "", 0, 0⟩⟩ ∧
    (world404 sampleClient.clientRef (getTargetReqSpec ⟨"abc"⟩)).statusCode = 404 :=
  ⟨rfl, rfl⟩

/-- C6: each id-taking operation called with an empty target id
returns the descriptive local error, the result is independent of the
transport environment (no HTTP request is sent), and the local error
is distinct from the server-reported error forms. -/
theorem claim_C6_empty_id_local (st : ClientState) (w1 w2 : HTTPWorld) :
    GetTarget st w1 ⟨""⟩ = .error (.localErr "TargetId must be provided") ∧
    GetTarget st w1 ⟨""⟩ = GetTarget st w2 ⟨""⟩ ∧
    UpdateTarget st w1 ⟨"", none, none, none, none, none⟩ =
      .error (.localErr "TargetId must be provided") ∧
    UpdateTarget st w1 ⟨"", none, none, none, none, none⟩ =
      UpdateTarget st w2 ⟨"", none, none, none, none, none⟩ ∧
    DeleteTarget st w1 ⟨""⟩ = .error (.localErr "TargetId must be provided") ∧
    DeleteTarget st w1 ⟨""⟩ = DeleteTarget st w2 ⟨""⟩ ∧
    TargetSummary st w1 ⟨""⟩ = .error (.localErr "TargetId must be provided") ∧
    TargetSummary st w1 ⟨""⟩ = TargetSummary st w2 ⟨""⟩ ∧
    (∀ ae : APIError, VError.localErr "TargetId must be provided" ≠ VError.apiErr ae) ∧
    (∀ s : Nat, VError.localErr "TargetId must be provided" ≠ VError.serverErr s) := by
  refine ⟨rfl, rfl, rfl, rfl, rfl, rfl, rfl, rfl, fun ae h => ?_, fun s h => ?_⟩
  · cases h
  · cases h

/-- C7: an update request with only `Name` set marshals to a payload
containing solely the key `name` — the target id and the nil
width/image/active/metadata pointers are omitted entirely — and that
payload is exactly the body of the PUT request `UpdateTarget` sends. -/
theorem claim_C7_partial_update (id name : String) :
    marshalUpdateTargetRequest ⟨id, some name, none, none, none, none⟩ =
      [("name", Jval.jstr name)] ∧
    (updateTargetReqSpec ⟨id, some name, none, none, none, none⟩).payload =
      some [("name", Jval.jstr name)] ∧
    (∀ (st : ClientState) (world : HTTPWorld), id ≠ "" →
      UpdateTarget st world ⟨id, some name, none, none, none, none⟩ =
        .ok (decodeUpdateTargetResponse ((world TransportRef.defaultClient
          ⟨"PUT", "/targets/" ++ id, some [("name", Jval.jstr name)]⟩).body))) := by
  refine ⟨rfl, rfl, fun st world hid => ?_⟩
  simp [UpdateTarget, hid, updateTargetReqSpec, marshalUpdateTargetRequest, optField]

/-- Witness for C7 at a concrete name-only update. -/
theorem claim_C7_witness :
    UpdateTarget sampleClient world200 ⟨"t1", some "newname", none, none, none, none⟩ =
      .ok (decodeUpdateTargetResponse ((world200 TransportRef.defaultClient
        ⟨"PUT", "/targets/" ++ "t1", some [("name", Jval.jstr "newname")]⟩).body)) :=
  (claim_C7_partial_update "t1" "newname").2.2 sampleClient world200 (by decide)

/-- C9: `PostTarget` and `UpdateTarget` send through the process-wide
default transport — their results are invariant under the transport
configured in `ClientConfig.Client`, also for two clients built by
`NewClient` from configs differing only in that field — whereas
`GetTarget`, `DeleteTarget`, `TargetSummary` and `DatabaseSummary`
send through the configured transport. -/
theorem claim_C9_transport_use (st : ClientState) (r : TransportRef) (world : HTTPWorld) :
    (∀ input, PostTarget { st with clientRef := r } world input =
        PostTarget st world input) ∧
    (∀ input, UpdateTarget { st with clientRef := r } world input =
        UpdateTarget st world input) ∧
    (∀ (cfg : ClientConfig) (t : Option TransportRef) (st1 st2 : ClientState)
       (pin : PostTargetRequest) (uin : UpdateTargetRequest),
      NewClient cfg = .ok st1 → NewClient { cfg with Client := t } = .ok st2 →
      PostTarget st1 world pin = PostTarget st2 world pin ∧
      UpdateTarget st1 world uin = UpdateTarget st2 world uin) ∧
    (∀ input, PostTarget st world input =
      .ok (decodePostTargetResponse
        ((world TransportRef.defaultClient (postTargetReqSpec input)).body))) ∧
    (∀ input : UpdateTargetRequest, input.TargetId ≠ "" →
      UpdateTarget st world input =
        .ok (decodeUpdateTargetResponse
          ((world TransportRef.defaultClient (updateTargetReqSpec input)).body))) ∧
    (∀ input : GetTargetRequest, input.TargetId ≠ "" →
      GetTarget st world input =
        .ok (decodeGetTargetResponse
          ((world st.clientRef (getTargetReqSpec input)).body))) ∧
    (∀ input : DeleteTargetRequest, input.TargetId ≠ "" →
      DeleteTarget st world input =
        .ok (decodeDeleteTargetResponse
          ((world st.clientRef (deleteTargetReqSpec input)).body))) ∧
    (∀ input : TargetSummaryRequest, input.TargetId ≠ "" →
      TargetSummary st world input =
        .ok (decodeTargetSummaryResponse
          ((world st.clientRef (targetSummaryReqSpec input)).body))) ∧
    DatabaseSummary st world =
      .ok (decodeDatabaseSummaryResponse
        ((world st.clientRef databaseSummaryReqSpec).body)) := by
  refine ⟨fun input => rfl, fun input => rfl,
    fun cfg t st1 st2 pin uin h1 h2 => ⟨rfl, rfl⟩,
    fun input => rfl, fun input hid => by simp [UpdateTarget, hid],
    fun input hid => by simp [GetTarget, hid],
    fun input hid => by simp [DeleteTarget, hid],
    fun input hid => by simp [TargetSummary, hid], rfl⟩

/-- Witness for C9 at concrete inputs: the transport-bound equations
hold for a client configured with a custom transport, and changing
the transport does not change `PostTarget`. -/
theorem claim_C9_witness :
    UpdateTarget sampleClient world200 ⟨"t", some "n", none, none, none, none⟩ =
      .ok (decodeUpdateTargetResponse ((world200 TransportRef.defaultClient
        (updateTargetReqSpec ⟨"t", some "n", none, none, none, none⟩)).body)) ∧
    GetTarget sampleClient world200 ⟨"t"⟩ =
      .ok (decodeGetTargetResponse
        ((world200 sampleClient.clientRef (getTargetReqSpec ⟨"t"⟩)).body)) ∧
    DeleteTarget sampleClient world200 ⟨"t"⟩ =
      .ok (decodeDeleteTargetResponse
        ((world200 sampleClient.clientRef (deleteTargetReqSpec ⟨"t"⟩)).body)) ∧
    TargetSummary sampleClient world200 ⟨"t"⟩ =
      .ok (decodeTargetSummaryResponse
        ((world200 sampleClient.clientRef (targetSummaryReqSpec ⟨"t"⟩)).body)) ∧
    PostTarget { sampleClient with clientRef := TransportRef.defaultClient }
        world200 ⟨"n", 1, "img", none, none⟩ =
      PostTarget sampleClient world200 ⟨"n", 1, "img", none, none⟩ :=
  ⟨(claim_C9_transport_use sampleClient TransportRef.defaultClient world200).2.2.2.2.1
     ⟨"t", some "n", none, none, none, none⟩ (by decide),
   (claim_C9_transport_use sampleClient TransportRef.defaultClient world200).2.2.2.2.2.1
     ⟨"t"⟩ (by decide),
   (claim_C9_transport_use sampleClient TransportRef.defaultClient world200).2.2.2.2.2.2.1
     ⟨"t"⟩ (by decide),
   (claim_C9_transport_use sampleClient TransportRef.defaultClient world200).2.2.2.2.2.2.2.1
     ⟨"t"⟩ (by decide),
   (claim_C9_transport_use sampleClient TransportRef.defaultClient world200).1
     ⟨"n", 1, "img", none, none⟩⟩

end Vuforia
